import Mathlib

/-!
Shallow embedding of the resilient ETL orchestration engine from
`src/docker/src` (files `etl_pipeline.py`, `utils/data_processor.py`,
`utils/database.py`, `scheduler_server.py`), together with theorems that
settle the specification claims about it.

Modelling conventions:
* pandas dataframes become typed lists of rows; the raw file is an
  inductive `SourceFile` distinguishing a missing file, an empty file and a
  file with content (columns plus rows);
* Python `float`/`Decimal` amounts become `ℚ`, integer quantities `ℤ`,
  timestamps and parsed dates abstract `ℕ` values;
* effectful collaborators (the PostgreSQL store, `time.sleep`, file
  writes, `pd.to_datetime`) are parameters of the embedded functions: a
  per-attempt connectivity oracle, a per-row rejection predicate, boolean
  I/O outcomes and a date-parsing oracle;
* Python `try/except/finally` becomes an explicit body result
  (`BodyExit.ret` or `BodyExit.exn`) with the `finally` clause applied
  exactly once by the wrapper, which is the semantics of the construct.
-/

namespace Etl

/-- One raw input row with the four required fields of the input CSV. -/
structure RawRow where
  date : String
  product : String
  amount : ℚ
  quantity : ℤ
deriving DecidableEq, Repr

/-- A raw dataframe: the column names the file carried, plus its rows. -/
structure RawFrame where
  columns : List String
  rows : List RawRow
deriving DecidableEq, Repr

/-- The state of the input artifact seen by `DataProcessor.extract_data`:
the file can be missing (`FileNotFoundError`), empty
(`pd.errors.EmptyDataError`), or present with content. -/
inductive SourceFile where
  | missing : SourceFile
  | empty : SourceFile
  | content : RawFrame → SourceFile
deriving DecidableEq, Repr

/-- A processed (enriched) row, mirroring the columns `transform_data`
adds to the copied dataframe. -/
structure ProcessedRow where
  date : ℕ
  product : String
  amount : ℚ
  quantity : ℤ
  total_sales : ℚ
  processed_at : ℕ
  category : String
  estimated_profit : ℚ
deriving DecidableEq, Repr

/-- One record as prepared for database insertion by `transform_data`. -/
structure DbRecord where
  date : ℕ
  product : String
  amount : ℚ
  quantity : ℤ
  total_sales : ℚ
  processed_at : ℕ
deriving DecidableEq, Repr

/-- Python's `str.lower`, over the character sequence. -/
def strToLower (s : String) : String := String.mk (s.data.map Char.toLower)

/-- Python's `str.upper`, over the character sequence. -/
def strToUpper (s : String) : String := String.mk (s.data.map Char.toUpper)

/-- Python's `str.startswith`, over the character sequence. -/
def strStartsWith (s p : String) : Bool := p.data.isPrefixOf s.data

/-- Python's `str.strip`, over the character sequence. -/
def strTrim (s : String) : String :=
  String.mk (((s.data.dropWhile Char.isWhitespace).reverse.dropWhile Char.isWhitespace).reverse)

namespace DataProcessor

/-- The required columns checked by `extract_data`. -/
def required_columns : List String := ["date", "product", "amount", "quantity"]

/-- The empty dataframe returned on every extraction failure. -/
def emptyFrame : RawFrame := ⟨[], []⟩

/-- Embedding of `DataProcessor.extract_data`: read the CSV, validate the
required columns, and degrade every failure to `(empty dataframe, false)`.
The three failure branches mirror the `FileNotFoundError` handler, the
`EmptyDataError` handler and the missing-column check of the source. -/
def extract_data (s : SourceFile) : RawFrame × Bool :=
  match s with
  | SourceFile.missing => (emptyFrame, false)
  | SourceFile.empty => (emptyFrame, false)
  | SourceFile.content df =>
      let missing_columns := required_columns.filter (fun c => ¬ df.columns.contains c)
      if missing_columns ≠ [] then (emptyFrame, false)
      else (df, true)

/-- Contiguous-sublist test over character lists. -/
def charsInfix (needle : List Char) : List Char → Bool
  | [] => needle.isEmpty
  | c :: t => needle.isPrefixOf (c :: t) || charsInfix needle t

/-- Substring test embedding Python's `word in product_lower`. -/
def containsWord (s w : String) : Bool := charsInfix w.toList s.toList

/-- Embedding of the nested `categorize_product` of `transform_data`:
an if/elif chain over the lower-cased product name. -/
def categorize_product (product : String) : String :=
  let product_lower := strToLower product
  if ["laptop", "monitor", "tablet"].any (fun w => containsWord product_lower w) then
    "Computers"
  else if ["keyboard", "mouse", "headphones"].any (fun w => containsWord product_lower w) then
    "Accessories"
  else if ["printer", "scanner"].any (fun w => containsWord product_lower w) then
    "Office Equipment"
  else
    "Other"

/-- Embedding of the nested `calculate_profit` of `transform_data`. -/
def calculate_profit (category : String) (amount : ℚ) : ℚ :=
  if category = "Computers" then amount * (20 / 100)
  else if category = "Accessories" then amount * (30 / 100)
  else amount * (15 / 100)

/-- Result of `transform_data`: the list of dicts prepared for database
insertion, the enriched dataframe, and the dataframe object the caller
passed in as it stands after the call (the source copies the input with
`df.copy()` before any column assignment, so the caller's object is
untouched on every path). -/
structure TransformResult where
  db_records : List DbRecord
  processed : List ProcessedRow
  caller_df : List RawRow
deriving DecidableEq, Repr

/-- Build one enriched row, mirroring the column assignments of
`transform_data` on the copied dataframe. -/
def enrichRow (parseDate : String → Option ℕ) (now : ℕ) (r : RawRow) : ProcessedRow :=
  let category := categorize_product r.product
  { date := (parseDate r.date).getD 0
    product := r.product
    amount := r.amount
    quantity := r.quantity
    total_sales := r.amount * (r.quantity : ℚ)
    processed_at := now
    category := category
    estimated_profit := calculate_profit category r.amount }

/-- Project an enriched row to the dict prepared for insertion. -/
def toDbRecord (p : ProcessedRow) : DbRecord :=
  { date := p.date
    product := p.product
    amount := p.amount
    quantity := p.quantity
    total_sales := p.total_sales
    processed_at := p.processed_at }

/-- Embedding of `DataProcessor.transform_data`. `parseDate` stands for
`pd.to_datetime`; a row whose date it cannot parse makes the whole call
raise, which the `except` clause converts to `([], empty dataframe)`.
On both paths the caller's dataframe comes back unchanged because the
source works on `df.copy()`. -/
def transform_data (parseDate : String → Option ℕ) (now : ℕ)
    (df : List RawRow) : TransformResult :=
  if df.all (fun r => (parseDate r.date).isSome) then
    let processed := df.map (enrichRow parseDate now)
    let db_records := processed.map toDbRecord
    ⟨db_records, processed, df⟩
  else
    ⟨[], [], df⟩

/-- Embedding of `DataProcessor.save_to_file`: returns the output path on
success and the empty string when there is no data or the write fails. -/
def save_to_file (df : List ProcessedRow) (ioOk : Bool) : String :=
  if df = [] then ""
  else if ioOk then "/app/output/processed_sales.csv"
  else ""

end DataProcessor

namespace DatabaseConnection

/-- Embedding of the `for attempt in range(max_retries)` loop of
`DatabaseConnection.connect`, recursing on the number of loop iterations
left. `oracle i` tells whether the `psycopg2.connect` call of iteration
`i` succeeds; the result carries the return value, the number of
connection attempts performed, and the list of delays slept (in order).
The source sleeps only when `attempt < max_retries - 1`, i.e. when at
least one iteration remains. -/
def connectGo (oracle : ℕ → Bool) (retryDelay : ℕ) : ℕ → ℕ → Bool × ℕ × List ℕ
  | _, 0 => (false, 0, [])
  | i, remaining + 1 =>
      if oracle i then (true, 1, [])
      else if remaining = 0 then (false, 1, [])
      else
        let r := connectGo oracle retryDelay (i + 1) remaining
        (r.1, r.2.1 + 1, retryDelay :: r.2.2)

/-- Embedding of `DatabaseConnection.connect` with its retry loop. -/
def connect (oracle : ℕ → Bool) (maxRetries retryDelay : ℕ) : Bool × ℕ × List ℕ :=
  connectGo oracle retryDelay 0 maxRetries

/-- The SELECT test of `execute_query`:
`query.strip().upper().startswith('SELECT')`. -/
def isSelectQuery (q : String) : Bool := strStartsWith (strToUpper (strTrim q)) "SELECT"

/-- The DDL issued by `create_sales_table`. -/
def create_table_query : String :=
  "CREATE TABLE IF NOT EXISTS sales (id SERIAL PRIMARY KEY, date DATE NOT NULL, product VARCHAR(100) NOT NULL, amount DECIMAL(10,2) NOT NULL, quantity INTEGER NOT NULL, total_sales DECIMAL(10,2) NOT NULL, processed_at TIMESTAMP NOT NULL, created_at TIMESTAMP DEFAULT CURRENT_TIMESTAMP)"

/-- Embedding of `DatabaseConnection.execute_query`. `hasConn` is whether
`self.connection` is set, `execFails` whether `cursor.execute` raises,
and `selectRows` the rows the store would return for a SELECT. The
source returns `None` when there is no connection, `None` when the query
raises (after a rollback), the fetched rows for a successful SELECT, and
`None` for a successful non-SELECT (after a commit). -/
def execute_query (hasConn : Bool) (execFails : Bool) (selectRows : List (List String))
    (q : String) : Option (List (List String)) :=
  if ¬ hasConn then none
  else if execFails then none
  else if isSelectQuery q then some selectRows
  else none

/-- Embedding of `DatabaseConnection.create_sales_table`: runs the DDL
through `execute_query` and maps a `None` result to `True`, anything
else to `False`. -/
def create_sales_table (hasConn : Bool) (execFails : Bool) : Bool :=
  match execute_query hasConn execFails [] create_table_query with
  | none => true
  | some _ => false

/-- Row-by-row execution of `psycopg2.extras.execute_batch` inside one
transaction: `reject r` is whether the store raises on row `r`; the
accumulator is the set of rows pending in the open transaction. On the
first rejected row the whole call raises (`none`). -/
def execBatchRows (reject : DbRecord → Bool) :
    List DbRecord → List DbRecord → Option (List DbRecord)
  | pending, [] => some pending
  | pending, r :: rs =>
      if reject r then none
      else execBatchRows reject (pending ++ [r]) rs

/-- Embedding of `DatabaseConnection.insert_sales_data` over an explicit
committed store: an empty batch returns 0 and leaves the store alone; a
raised execution rolls the transaction back (committed rows unchanged)
and returns 0; otherwise one commit appends the whole batch and the full
count is returned. -/
def insert_sales_data (reject : DbRecord → Bool) (committed : List DbRecord)
    (batch : List DbRecord) : ℕ × List DbRecord :=
  if batch = [] then (0, committed)
  else
    match execBatchRows reject [] batch with
    | some pending => (pending.length, committed ++ pending)
    | none => (0, committed)

/-- The connection-owning state of a `DatabaseConnection` object:
whether a live connection is held, and how many times the `close`
method has run. -/
structure DbState where
  connection : Bool
  closeMethodCalls : ℕ
deriving DecidableEq, Repr

/-- Embedding of `DatabaseConnection.close`: release the connection if
one is held, otherwise do nothing; in both cases the method returns
normally. -/
def close (st : DbState) : DbState :=
  { connection := false, closeMethodCalls := st.closeMethodCalls + 1 }

end DatabaseConnection

/-- Environment of one `run_etl_pipeline` call: the input artifact, the
behaviour of every effectful collaborator, and an optional
fault-injection point `fault = some k` meaning an unexpected exception
is raised while step `k` executes (caught by the `except Exception`
clause of the source). -/
structure PipelineEnv where
  source : SourceFile
  parseDate : String → Option ℕ
  now : ℕ
  connectOracle : ℕ → Bool
  maxRetries : ℕ
  retryDelay : ℕ
  ddlFails : Bool
  rejectRow : DbRecord → Bool
  committed : List DbRecord
  saveCsvOk : Bool
  saveParquetOk : Bool
  fault : Option ℕ

/-- Whether the injected unexpected exception fires at step `k`. -/
def PipelineEnv.faultAt (env : PipelineEnv) (k : ℕ) : Bool := env.fault = some k

/-- How the `try` body of `run_etl_pipeline` exits: a normal `return b`,
or an exception propagating out of the body. -/
inductive BodyExit where
  | ret : Bool → BodyExit
  | exn : BodyExit
deriving DecidableEq, Repr

/-- Observable result of the `try` body: its exit, whether the
connect-failure fallback save produced a file, and whether the
`DatabaseConnection` object holds a live connection when the body is
left. The body never calls `close`; only the `finally` clause does. -/
structure BodyResult where
  exit : BodyExit
  fallbackSaved : Bool
  connection : Bool
deriving DecidableEq, Repr

/-- Observable result of a full `run_etl_pipeline` call. -/
structure RunResult where
  success : Bool
  fallbackSaved : Bool
  db : DatabaseConnection.DbState
deriving DecidableEq, Repr

/-- Embedding of the `try` body of `run_etl_pipeline` (steps 1 to 7),
with the early `return False` branches of the source and the injected
unexpected-exception points. Before step 3 no connection is held; from
step 3 on, one is held exactly when `connect` returned true. -/
def pipelineBody (env : PipelineEnv) : BodyResult :=
  if env.faultAt 1 then ⟨BodyExit.exn, false, false⟩ else
  let e := DataProcessor.extract_data env.source
  if e.2 = false ∨ e.1.rows = [] then ⟨BodyExit.ret false, false, false⟩ else
  if env.faultAt 2 then ⟨BodyExit.exn, false, false⟩ else
  let t := DataProcessor.transform_data env.parseDate env.now e.1.rows
  if t.db_records = [] ∨ t.processed = [] then ⟨BodyExit.ret false, false, false⟩ else
  if env.faultAt 3 then ⟨BodyExit.exn, false, false⟩ else
  let c := DatabaseConnection.connect env.connectOracle env.maxRetries env.retryDelay
  if c.1 = false then
    let file_path := DataProcessor.save_to_file t.processed env.saveCsvOk
    ⟨BodyExit.ret false, file_path ≠ "", c.1⟩
  else
  if env.faultAt 4 then ⟨BodyExit.exn, false, c.1⟩ else
  if DatabaseConnection.create_sales_table c.1 env.ddlFails = false then
    ⟨BodyExit.ret false, false, c.1⟩ else
  if env.faultAt 5 then ⟨BodyExit.exn, false, c.1⟩ else
  let ins := DatabaseConnection.insert_sales_data env.rejectRow env.committed t.db_records
  if ins.1 = 0 then ⟨BodyExit.ret false, false, c.1⟩ else
  if env.faultAt 6 then ⟨BodyExit.exn, false, c.1⟩ else
  let _csv := DataProcessor.save_to_file t.processed env.saveCsvOk
  let _parquet := DataProcessor.save_to_file t.processed env.saveParquetOk
  if env.faultAt 7 then ⟨BodyExit.exn, false, c.1⟩ else
  ⟨BodyExit.ret true, false, c.1⟩

/-- Embedding of `run_etl_pipeline`: run the `try` body, convert an
exception into `return False` (the `except Exception` clause), and apply
the `finally` clause — one call of `DatabaseConnection.close` on the
connection state the body left behind — exactly once on every exit path,
which is the semantics of `try/finally`. The close-call counter starts
at 0 for the fresh `DatabaseConnection` object of this run. -/
def run_etl_pipeline (env : PipelineEnv) : RunResult :=
  let b := pipelineBody env
  let db_final := DatabaseConnection.close ⟨b.connection, 0⟩
  { success := match b.exit with | BodyExit.ret v => v | BodyExit.exn => false
    fallbackSaved := b.fallbackSaved
    db := db_final }

/-- Embedding of the `__main__` block of `etl_pipeline.py`:
`sys.exit(0 if success else 1)`. -/
def mainExitCode (env : PipelineEnv) : ℕ :=
  if (run_etl_pipeline env).success then 0 else 1

namespace Scheduler

/-- Process-wide state of `scheduler_server.py` relevant to triggering:
the number of pipeline tasks currently executing in background threads
spawned by the server. The source keeps no such flag or counter; the
model counts the spawned threads to state properties about overlap. -/
structure SchedState where
  activeRuns : ℕ
deriving DecidableEq, Repr

/-- The response the handler writes, reduced to its status code and
whether handling the request spawned a background pipeline task. -/
structure HttpResponse where
  status : ℕ
  startedBackgroundTask : Bool
deriving DecidableEq, Repr

/-- Embedding of `SchedulerHandler.do_GET`: dispatch on the path. The
`/run-now` branch starts a `threading.Thread` running the pipeline and
answers 200 immediately — unconditionally, with no check of any
already-running task. All other branches only write a response. -/
def do_GET (st : SchedState) (path : String) : HttpResponse × SchedState :=
  if path = "/health" then (⟨200, false⟩, st)
  else if path = "/" then (⟨200, false⟩, st)
  else if path = "/run-now" then (⟨200, true⟩, ⟨st.activeRuns + 1⟩)
  else if path = "/schedule" then (⟨200, false⟩, st)
  else if path = "/status" then (⟨200, false⟩, st)
  else (⟨404, false⟩, st)

end Scheduler

/-! ## Spec-side definitions and demo inputs -/

/-- The ordered keyword table described by the spec for category
assignment, written from the spec words, to be compared with the
if/elif chain of the source (`categorize_product`). -/
def specCategoryTable : List (List String × String) :=
  [(["laptop", "monitor", "tablet"], "Computers"),
   (["keyboard", "mouse", "headphones"], "Accessories"),
   (["printer", "scanner"], "Office Equipment")]

/-- Category assignment as the spec words it: evaluate the fixed ordered
keyword table top-to-bottom over the lower-cased product name, first
matching keyword wins, default category when no keyword matches. -/
def specFirstMatchCategory (product : String) : String :=
  let product_lower := strToLower product
  match specCategoryTable.find?
      (fun e => e.1.any (fun w => DataProcessor.containsWord product_lower w)) with
  | some e => e.2
  | none => "Other"

/-- The closed set of categories the classifier can produce. -/
def categorySet : List String := ["Computers", "Accessories", "Office Equipment", "Other"]

/-- The date oracle used in the concrete demo runs. -/
def demoParse : String → Option ℕ := fun _ => some 20240101

/-- The three-row demo input of the spec's end-to-end scenario. -/
def demoDf : List RawRow :=
  [⟨"2024-01-01", "Laptop", 1000, 2⟩,
   ⟨"2024-01-02", "Mouse", 20, 5⟩,
   ⟨"2024-01-03", "Widget", 10, 1⟩]

/-- The failure condition of the extraction contract: the source is
missing, the source is empty, or a required column is absent. -/
def extractFailCond (s : SourceFile) : Prop :=
  match s with
  | SourceFile.missing => True
  | SourceFile.empty => True
  | SourceFile.content df => ∃ c ∈ DataProcessor.required_columns, c ∉ df.columns

/-! ## Claim theorems -/

/-- C9: category assignment is a deterministic total function of the
product name: the source classifier agrees everywhere with the ordered
first-match keyword table over the lower-cased product name, always lands
in the closed category set with default "Other", and classifies "Mouse"
as Accessories and "Widget" as Other. -/
theorem categorize_product_first_match :
    (∀ p : String,
      DataProcessor.categorize_product p = specFirstMatchCategory p
      ∧ DataProcessor.categorize_product p ∈ categorySet)
    ∧ DataProcessor.categorize_product "Mouse" = "Accessories"
    ∧ DataProcessor.categorize_product "Widget" = "Other" := by
  refine ⟨fun p => ⟨?_, ?_⟩, by decide, by decide⟩
  · simp only [DataProcessor.categorize_product, specFirstMatchCategory, specCategoryTable,
      List.find?]
    cases h1 : ["laptop", "monitor", "tablet"].any
        (fun w => DataProcessor.containsWord (strToLower p) w) <;>
      cases h2 : ["keyboard", "mouse", "headphones"].any
          (fun w => DataProcessor.containsWord (strToLower p) w) <;>
        cases h3 : ["printer", "scanner"].any
            (fun w => DataProcessor.containsWord (strToLower p) w) <;>
          simp [h1, h2, h3]
  · simp only [DataProcessor.categorize_product, categorySet]
    split_ifs <;> simp

/-- C10: the transformer never mutates its input record set: the caller's
dataframe is unchanged after the call, on the success path and on the
failure path alike, because the source operates on `df.copy()`. -/
theorem transform_data_preserves_input :
    ∀ (parseDate : String → Option ℕ) (now : ℕ) (df : List RawRow),
      (DataProcessor.transform_data parseDate now df).caller_df = df := by
  intro parseDate now df
  unfold DataProcessor.transform_data
  split <;> rfl

/-- C4 (code bug): `create_sales_table` returns `True` for every
combination of connection presence and DDL execution outcome — in
particular it returns `True` when the DDL execution errors, because
`execute_query` collapses both non-SELECT success and execution failure
into `None` and `create_sales_table` maps `None` to `True`. -/
theorem create_sales_table_always_true :
    DatabaseConnection.create_sales_table true true = true
    ∧ ∀ hasConn execFails : Bool,
        DatabaseConnection.create_sales_table hasConn execFails = true := by
  constructor
  · rfl
  · decide

/-- C7: extraction fails — ok flag false, and then the returned frame is
the empty frame — exactly when the source is missing, the source is
empty, or a required column is absent; every outcome is one of those two
shapes, so no failure escapes the boolean result. -/
theorem extract_data_failure_characterization :
    ∀ s : SourceFile,
      ((DataProcessor.extract_data s).2 = false ↔ extractFailCond s)
      ∧ (DataProcessor.extract_data s = (DataProcessor.emptyFrame, false)
         ∨ (DataProcessor.extract_data s).2 = true) := by
  intro s
  cases s with
  | missing => exact ⟨by simp [DataProcessor.extract_data, extractFailCond], Or.inl rfl⟩
  | empty => exact ⟨by simp [DataProcessor.extract_data, extractFailCond], Or.inl rfl⟩
  | content df =>
      constructor
      · simp only [DataProcessor.extract_data, extractFailCond]
        by_cases h : ∃ c ∈ DataProcessor.required_columns, c ∉ df.columns
        · simp [h]
        · simp [h]
      · by_cases h : ∃ c ∈ DataProcessor.required_columns, c ∉ df.columns
        · exact Or.inl (by simp [DataProcessor.extract_data, h])
        · exact Or.inr (by simp [DataProcessor.extract_data, h])

/-- C8: every enriched record satisfies `total_sales = amount * quantity`
exactly, and on the spec's three-row example the totals are 2000, 100
and 10. -/
theorem transform_total_eq_amount_mul_quantity :
    (∀ (parseDate : String → Option ℕ) (now : ℕ) (df : List RawRow) (p : ProcessedRow),
        p ∈ (DataProcessor.transform_data parseDate now df).processed →
        p.total_sales = p.amount * (p.quantity : ℚ))
    ∧ (DataProcessor.transform_data demoParse 7 demoDf).processed.map
        (fun p => p.total_sales) = [2000, 100, 10] := by
  constructor
  · intro parseDate now df p hp
    unfold DataProcessor.transform_data at hp
    split at hp
    · simp only [List.mem_map] at hp
      obtain ⟨r, _, rfl⟩ := hp
      rfl
    · simp at hp
  · show (DataProcessor.transform_data demoParse 7 demoDf).processed.map
        (fun p => p.total_sales) = [2000, 100, 10]
    norm_num [DataProcessor.transform_data, DataProcessor.enrichRow, demoDf, demoParse]

/-- C8 witness: the first demo row is in the transformed output and its
total equals its amount times its quantity. -/
theorem transform_total_witness :
    (DataProcessor.enrichRow demoParse 7 ⟨"2024-01-01", "Laptop", 1000, 2⟩
        ∈ (DataProcessor.transform_data demoParse 7 demoDf).processed)
    ∧ (DataProcessor.enrichRow demoParse 7 ⟨"2024-01-01", "Laptop", 1000, 2⟩).total_sales
        = (DataProcessor.enrichRow demoParse 7 ⟨"2024-01-01", "Laptop", 1000, 2⟩).amount
          * ((DataProcessor.enrichRow demoParse 7 ⟨"2024-01-01", "Laptop", 1000, 2⟩).quantity : ℚ) := by
  have hmem : DataProcessor.enrichRow demoParse 7 ⟨"2024-01-01", "Laptop", 1000, 2⟩
      ∈ (DataProcessor.transform_data demoParse 7 demoDf).processed :=
    List.Mem.head _
  exact ⟨hmem, transform_total_eq_amount_mul_quantity.1 demoParse 7 demoDf _ hmem⟩

/-- Executing a batch row-by-row succeeds with the whole batch appended
to the pending transaction exactly when no row is rejected. -/
theorem execBatchRows_no_reject (reject : DbRecord → Bool) :
    ∀ (batch acc : List DbRecord), batch.any reject = false →
      DatabaseConnection.execBatchRows reject acc batch = some (acc ++ batch) := by
  intro batch
  induction batch with
  | nil => intro acc _; simp [DatabaseConnection.execBatchRows]
  | cons r rs ih =>
      intro acc h
      simp only [List.any_cons, Bool.or_eq_false_iff] at h
      simp only [DatabaseConnection.execBatchRows]
      rw [if_neg (by simp [h.1]), ih (acc ++ [r]) h.2]
      simp

/-- Executing a batch row-by-row raises (and so rolls back) as soon as
some row is rejected. -/
theorem execBatchRows_reject (reject : DbRecord → Bool) :
    ∀ (batch acc : List DbRecord), batch.any reject = true →
      DatabaseConnection.execBatchRows reject acc batch = none := by
  intro batch
  induction batch with
  | nil => intro acc h; simp at h
  | cons r rs ih =>
      intro acc h
      by_cases hr : reject r = true
      · simp [DatabaseConnection.execBatchRows, hr]
      · simp only [List.any_cons, Bool.or_eq_true_iff] at h
        have hrs : rs.any reject = true := by
          rcases h with h | h
          · exact absurd h hr
          · exact h
        simp only [DatabaseConnection.execBatchRows]
        rw [if_neg hr]
        exact ih (acc ++ [r]) hrs

/-- C2: insertion of a non-empty batch is all-or-nothing: either no row
is rejected, the whole batch is committed and the full count returned,
or some row is rejected, the store is left unchanged and 0 is
returned. -/
theorem insert_sales_data_all_or_nothing :
    ∀ (reject : DbRecord → Bool) (committed batch : List DbRecord), batch ≠ [] →
      (DatabaseConnection.insert_sales_data reject committed batch
            = (batch.length, committed ++ batch)
          ∧ ∀ r ∈ batch, reject r = false)
      ∨ (DatabaseConnection.insert_sales_data reject committed batch = (0, committed)
          ∧ ∃ r ∈ batch, reject r = true) := by
  intro reject committed batch hne
  cases h : batch.any reject with
  | false =>
      refine Or.inl ⟨?_, ?_⟩
      · simp only [DatabaseConnection.insert_sales_data, if_neg hne,
          execBatchRows_no_reject reject batch [] h]
        simp
      · intro r hr
        rcases List.any_eq_false.mp h r hr with hfalse
        simpa using hfalse
  | true =>
      refine Or.inr ⟨?_, ?_⟩
      · simp only [DatabaseConnection.insert_sales_data, if_neg hne,
          execBatchRows_reject reject batch [] h]
      · simpa using List.any_eq_true.mp h

/-- The demo batch for the insertion claims: two rows, of which the store
rejects the final one. -/
def demoBatch : List DbRecord :=
  [⟨20240101, "Laptop", 1000, 2, 2000, 7⟩, ⟨20240102, "Mouse", 20, 5, 100, 7⟩]

/-- Rejection predicate for the demo: the store rejects the "Mouse" row,
the final row of the demo batch. -/
def demoReject : DbRecord → Bool := fun r => r.product == "Mouse"

/-- C2 witness: on a two-row batch whose final row the store rejects,
insertion commits nothing and returns 0 even though the first row was
individually acceptable. -/
theorem insert_sales_data_witness :
    DatabaseConnection.insert_sales_data demoReject [] demoBatch = (0, [])
    ∧ (∃ r ∈ demoBatch, demoReject r = true)
    ∧ demoReject ⟨20240101, "Laptop", 1000, 2, 2000, 7⟩ = false := by
  rcases insert_sales_data_all_or_nothing demoReject [] demoBatch (by decide) with h | h
  · have h0 : DatabaseConnection.insert_sales_data demoReject [] demoBatch = (0, []) := by rfl
    rw [h0] at h
    exact absurd (congrArg Prod.fst h.1) (by decide)
  · exact ⟨h.1, h.2, by decide⟩

/-- One-step unfolding of the retry loop on a positive iteration
count. -/
theorem connectGo_succ (oracle : ℕ → Bool) (d i n : ℕ) :
    DatabaseConnection.connectGo oracle d i (n + 1) =
      if oracle i = true then (true, 1, [])
      else if n = 0 then (false, 1, [])
      else ((DatabaseConnection.connectGo oracle d (i + 1) n).1,
            (DatabaseConnection.connectGo oracle d (i + 1) n).2.1 + 1,
            d :: (DatabaseConnection.connectGo oracle d (i + 1) n).2.2) := rfl

/-- Against a store whose every connection attempt fails, the retry loop
runs all its remaining iterations, counting one attempt per iteration and
sleeping the fixed delay between consecutive attempts. -/
theorem connectGo_all_fail (oracle : ℕ → Bool) (h : ∀ k, oracle k = false) (d : ℕ) :
    ∀ (n i : ℕ),
      DatabaseConnection.connectGo oracle d i (n + 1) = (false, n + 1, List.replicate n d) := by
  intro n
  induction n with
  | zero =>
      intro i
      rw [connectGo_succ, if_neg (by simp [h i]), if_pos rfl]
      rfl
  | succ m ih =>
      intro i
      rw [connectGo_succ, if_neg (by simp [h i]), if_neg (Nat.succ_ne_zero m), ih (i + 1)]
      simp [List.replicate_succ]

/-- If the first `s` attempts starting at iteration `i` fail and attempt
`i + s` succeeds within the remaining iterations, the loop returns true
right after that attempt, having made `s + 1` attempts and slept `s`
times. -/
theorem connectGo_first_success (oracle : ℕ → Bool) (d : ℕ) :
    ∀ (s i rem : ℕ), s < rem →
      (∀ j, j < s → oracle (i + j) = false) → oracle (i + s) = true →
      DatabaseConnection.connectGo oracle d i rem = (true, s + 1, List.replicate s d) := by
  intro s
  induction s with
  | zero =>
      intro i rem hrem _ hsucc
      cases rem with
      | zero => exact absurd hrem (by omega)
      | succ rr =>
          rw [Nat.add_zero] at hsucc
          rw [connectGo_succ, if_pos hsucc]
          rfl
  | succ m ih =>
      intro i rem hrem hfail hsucc
      cases rem with
      | zero => exact absurd hrem (by omega)
      | succ rr =>
          have h0 : oracle i = false := by simpa using hfail 0 (Nat.succ_pos m)
          have hrec := ih (i + 1) rr (by omega)
            (fun j hj => by
              rw [show i + 1 + j = i + (j + 1) from by omega]
              exact hfail (j + 1) (by omega))
            (by
              rw [show i + 1 + m = i + (m + 1) from by omega]
              exact hsucc)
          rw [connectGo_succ, if_neg (by simp [h0]), if_neg (by omega), hrec]
          simp [List.replicate_succ]

/-- C3: with `maxRetries = N ≥ 1` and an always-failing store, `connect`
makes exactly N attempts with the fixed `retryDelay` slept between
consecutive attempts (N - 1 sleeps of the same delay) and returns false;
when the first success comes at attempt `k + 1 ≤ N`, it returns true
immediately after `k + 1` attempts and `k` sleeps, with no further
attempt or sleep. -/
theorem connect_retry_policy :
    ∀ (oracle : ℕ → Bool) (N d : ℕ), 1 ≤ N →
      ((∀ k, oracle k = false) →
        DatabaseConnection.connect oracle N d = (false, N, List.replicate (N - 1) d))
      ∧ (∀ k, k < N → (∀ j, j < k → oracle j = false) → oracle k = true →
          DatabaseConnection.connect oracle N d = (true, k + 1, List.replicate k d)) := by
  intro oracle N d hN
  constructor
  · intro hfail
    obtain ⟨m, rfl⟩ := Nat.exists_eq_add_of_le hN
    have h := connectGo_all_fail oracle hfail d m 0
    simpa [DatabaseConnection.connect, Nat.add_comm 1 m] using h
  · intro k hk hfail hsucc
    have h := connectGo_first_success oracle d k 0 N hk
      (fun j hj => by simpa using hfail j hj) (by simpa using hsucc)
    simpa [DatabaseConnection.connect] using h

/-- C3 witness: with three attempts and delay 2, an always-failing store
gives exactly 3 attempts, sleeps [2, 2] and result false, while a store
succeeding on the second attempt gives result true after 2 attempts and
one sleep. -/
theorem connect_retry_policy_witness :
    DatabaseConnection.connect (fun _ => false) 3 2 = (false, 3, [2, 2])
    ∧ DatabaseConnection.connect (fun i => decide (i = 1)) 3 2 = (true, 2, [2]) := by
  constructor
  · exact (connect_retry_policy (fun _ => false) 3 2 (by decide)).1 (fun k => rfl)
  · exact (connect_retry_policy (fun i => decide (i = 1)) 3 2 (by decide)).2 1 (by decide)
      (fun j hj => by
        have hj0 : j = 0 := Nat.lt_one_iff.mp hj
        rw [hj0]
        rfl)
      (by decide)

/-- C6: on every exit path of a pipeline run — normal completion, early
return after a failed step, or an injected unexpected exception at any
step — the `finally` cleanup runs the `close` method exactly once and
the connection is released at the end; and the `close` method on a state
that never held a connection returns normally, leaving everything but
its call counter unchanged. -/
theorem cleanup_exactly_once :
    ∀ env : PipelineEnv,
      ((run_etl_pipeline env).db.closeMethodCalls = 1
        ∧ (run_etl_pipeline env).db.connection = false)
      ∧ ∀ n : ℕ, DatabaseConnection.close ⟨false, n⟩ = ⟨false, n + 1⟩ := by
  intro env
  exact ⟨⟨rfl, rfl⟩, fun n => rfl⟩

/-- A store whose every attempt fails makes the embedded `connect` loop
return false for any retry budget. -/
theorem connectGo_pointwise_false (oracle : ℕ → Bool) (h : ∀ k, oracle k = false)
    (d : ℕ) : ∀ (n i : ℕ), (DatabaseConnection.connectGo oracle d i n).1 = false := by
  intro n
  induction n with
  | zero => intro i; rfl
  | succ m ih =>
      intro i
      rw [connectGo_succ, if_neg (by simp [h i])]
      by_cases hm : m = 0
      · rw [if_pos hm]
      · rw [if_neg hm]
        exact ih (i + 1)

/-- Saving a non-empty record set yields a path exactly when the write
succeeds. -/
theorem save_to_file_ne_empty (df : List ProcessedRow) (ok : Bool) (hdf : df ≠ []) :
    decide (DataProcessor.save_to_file df ok ≠ "") = ok := by
  unfold DataProcessor.save_to_file
  rw [if_neg hdf]
  cases ok <;> simp

/-- C1 (amended): when extraction and transformation succeed on non-empty
data, no unexpected exception is injected and every connection attempt
fails, the run saves the transformed data to the fallback file exactly
when the file write succeeds, returns the failure result `False`, and
the stand-alone invocation exits with code 1 — not 0. -/
theorem fallback_branch_amended :
    ∀ env : PipelineEnv,
      env.fault = none →
      (DataProcessor.extract_data env.source).2 = true →
      (DataProcessor.extract_data env.source).1.rows ≠ [] →
      (DataProcessor.transform_data env.parseDate env.now
          (DataProcessor.extract_data env.source).1.rows).db_records ≠ [] →
      (DataProcessor.transform_data env.parseDate env.now
          (DataProcessor.extract_data env.source).1.rows).processed ≠ [] →
      (∀ k, env.connectOracle k = false) →
      (run_etl_pipeline env).success = false
      ∧ (run_etl_pipeline env).fallbackSaved = env.saveCsvOk
      ∧ mainExitCode env = 1 := by
  intro env hfault hex hrows hdb hproc horacle
  have hfa : ∀ k, env.faultAt k = false := by
    intro k
    simp [PipelineEnv.faultAt, hfault]
  have hconn : (DatabaseConnection.connect env.connectOracle env.maxRetries env.retryDelay).1
      = false := connectGo_pointwise_false env.connectOracle horacle env.retryDelay
        env.maxRetries 0
  have hbody : pipelineBody env =
      ⟨BodyExit.ret false,
        decide (DataProcessor.save_to_file
          (DataProcessor.transform_data env.parseDate env.now
            (DataProcessor.extract_data env.source).1.rows).processed env.saveCsvOk ≠ ""),
        false⟩ := by
    unfold pipelineBody
    rw [if_neg (by simp [hfa 1])]
    rw [if_neg (by simp [hex, hrows])]
    rw [if_neg (by simp [hfa 2])]
    rw [if_neg (by simp [hdb, hproc])]
    rw [if_neg (by simp [hfa 3])]
    rw [if_pos (by simp [hconn])]
    rw [hconn]
  constructor
  · show (run_etl_pipeline env).success = false
    unfold run_etl_pipeline
    rw [hbody]
  constructor
  · show (run_etl_pipeline env).fallbackSaved = env.saveCsvOk
    unfold run_etl_pipeline
    rw [hbody]
    exact save_to_file_ne_empty _ env.saveCsvOk hproc
  · show mainExitCode env = 1
    unfold mainExitCode run_etl_pipeline
    rw [hbody]
    rfl

/-- The demo environment: good three-row input, working transformation,
a store that refuses every connection attempt, and a working file
system. -/
def fallbackEnv : PipelineEnv :=
  { source := SourceFile.content ⟨["date", "product", "amount", "quantity"], demoDf⟩
    parseDate := demoParse
    now := 7
    connectOracle := fun _ => false
    maxRetries := 5
    retryDelay := 2
    ddlFails := false
    rejectRow := fun _ => false
    committed := []
    saveCsvOk := true
    saveParquetOk := true
    fault := none }

/-- C1 counterexample: on a run where extraction and transformation
succeed and the store refuses every connection attempt, the code writes
the fallback file but returns the failure result and the stand-alone
invocation exits with code 1, not 0 as claimed. -/
theorem fallback_branch_exit_code_counterexample :
    (DataProcessor.extract_data fallbackEnv.source).2 = true
    ∧ (run_etl_pipeline fallbackEnv).fallbackSaved = true
    ∧ (run_etl_pipeline fallbackEnv).success = false
    ∧ mainExitCode fallbackEnv = 1
    ∧ mainExitCode fallbackEnv ≠ 0 := by
  refine ⟨rfl, rfl, rfl, rfl, by decide⟩

/-- C1 witness: the amended fallback behaviour holds on the demo
environment. -/
theorem fallback_branch_amended_witness :
    (run_etl_pipeline fallbackEnv).success = false
    ∧ (run_etl_pipeline fallbackEnv).fallbackSaved = true
    ∧ mainExitCode fallbackEnv = 1 := by
  have h := fallback_branch_amended fallbackEnv rfl (by decide) (by decide) (by decide)
    (by decide) (fun k => rfl)
  exact ⟨h.1, h.2.1, h.2.2⟩

/-- C5 counterexample: with one pipeline task already active, a manual
trigger on `/run-now` starts a second background pipeline task — the
claimed mutual exclusion does not exist in the code. -/
theorem run_now_concurrent_counterexample :
    (Scheduler.do_GET ⟨1⟩ "/run-now").2.activeRuns = 2
    ∧ ¬ (Scheduler.do_GET ⟨1⟩ "/run-now").2.activeRuns ≤ 1
    ∧ (Scheduler.do_GET ⟨1⟩ "/run-now").1.startedBackgroundTask = true := by
  refine ⟨rfl, by decide, rfl⟩

/-- C5 (amended): the `/run-now` handler always answers 200 immediately
and always spawns one more background pipeline task, whatever the number
of already-running tasks — there is no `isRunning` guard. -/
theorem run_now_always_spawns :
    ∀ st : Scheduler.SchedState,
      (Scheduler.do_GET st "/run-now").1.status = 200
      ∧ (Scheduler.do_GET st "/run-now").1.startedBackgroundTask = true
      ∧ (Scheduler.do_GET st "/run-now").2.activeRuns = st.activeRuns + 1 := by
  intro st
  exact ⟨rfl, rfl, rfl⟩

end Etl
